import Mathlib

/-!
Verification of the entity projection engine of the RKPU 3D viewer
(`src/App.jsx`).  The projection effect (lines 130–348 of the source)
maps the loaded aviation dataset and the UI filter state to the list of
renderable map entities.  We embed that pass as a pure Lean function and
prove the filtering / styling properties stated in the specification.

Conventions of the embedding:
* JS numbers are modelled as `ℚ` (the projection performs only exact
  arithmetic: `elevation / 2`, `500 + idx * 50`, default substitution).
* An optional JSON field is an `Option`; the JS truthiness test
  `x || d` on a number is `jsOr`, which substitutes the default both for
  a missing field and for the falsy number `0`.
* A JS object used as a string-keyed map is a `List (String × _)` with
  `List.lookup`; a missing key is `undefined`, i.e. falsy.
* A Cesium color is its CSS string plus an alpha channel.
-/

/-- A Cesium color: CSS string and alpha channel, as produced by
`Cesium.Color.fromCssColorString` (alpha 1) and `withAlpha`. -/
structure Color where
  css : String
  alpha : ℚ
deriving DecidableEq

/-- `Color.withAlpha`, as in Cesium. -/
def Color.withAlpha (c : Color) (a : ℚ) : Color :=
  { c with alpha := a }

/-- `Cesium.Cartesian3.fromDegrees lon lat height`, kept in degrees. -/
structure Pos where
  lon : ℚ
  lat : ℚ
  height : ℚ
deriving DecidableEq

/-- The `COLORS` constant object of `App.jsx` (lines 8–21). -/
def COLORS.SID : Color := ⟨ "#00C853", 1⟩
def COLORS.STAR : Color := ⟨ "#FF6D00", 1⟩
def COLORS.APPROACH : Color := ⟨ "#2979FF", 1⟩
def COLORS.waypoint : Color := ⟨ "#FFEB3B", 1⟩
def COLORS.obstacle_building : Color := ⟨ "#F44336", 1⟩
def COLORS.obstacle_tower : Color := ⟨ "#FF5722", 1⟩
def COLORS.obstacle_natural : Color := ⟨ "#4CAF50", 1⟩
def COLORS.obstacle_tree : Color := ⟨ "#8BC34A", 1⟩
def COLORS.obstacle_navaid : Color := ⟨ "#9C27B0", 1⟩
def COLORS.obstacle_etc : Color := ⟨ "#607D8B", 1⟩
def COLORS.airspace : Color := Color.withAlpha ⟨ "#E91E63", 1⟩ (1/5)
def COLORS.runway : Color := ⟨ "#FFFFFF", 1⟩

/-- The `OBSTACLE_COLORS` table (lines 23–30): obstacle type → color. -/
def OBSTACLE_COLORS : List (String × Color) :=
  [("Building", COLORS.obstacle_building),
   ("Tower", COLORS.obstacle_tower),
   ("Natural", COLORS.obstacle_natural),
   ("Tree", COLORS.obstacle_tree),
   ("Navaid", COLORS.obstacle_navaid),
   ("ETC", COLORS.obstacle_etc)]

/-- A waypoint record: `{lat, lon, altitude?, sources}`. -/
structure Waypoint where
  lat : ℚ
  lon : ℚ
  altitude : Option ℚ
  sources : List String
deriving DecidableEq

/-- An obstacle record: `{id, type, lat, lon, elevation}`. -/
structure Obstacle where
  id : String
  type : String
  lat : ℚ
  lon : ℚ
  elevation : ℚ
deriving DecidableEq

/-- An airspace record: `{name?, base_alt?, top_alt?, coordinates}`,
`coordinates` being a list of rings of `(lon, lat)` pairs. -/
structure AirspaceZone where
  name : Option String
  base_alt : Option ℚ
  top_alt : Option ℚ
  coordinates : List (List (ℚ × ℚ))
deriving DecidableEq

/-- A procedure leg: `{seq?, start_alt?, end_alt?, coordinates?}`. -/
structure Leg where
  seq : Option ℚ
  start_alt : Option ℚ
  end_alt : Option ℚ
  coordinates : Option (List (ℚ × ℚ))
deriving DecidableEq

/-- A procedure record: `{name, table, coordinates?, legs?}`. -/
structure Procedure where
  name : String
  table : String
  coordinates : Option (List (ℚ × ℚ))
  legs : Option (List Leg)
deriving DecidableEq

/-- The three procedure collections of `data.procedures`. -/
structure Procedures where
  SID : List Procedure
  STAR : List Procedure
  APPROACH : List Procedure
deriving DecidableEq

/-- The loaded dataset (`data`): waypoint map as an association list in
object-key order, obstacle list, optional airspace list, procedures. -/
structure Dataset where
  waypoints : List (String × Waypoint)
  obstacles : List Obstacle
  airspace : Option (List AirspaceZone)
  procedures : Procedures
deriving DecidableEq

/-- The per-layer toggles (`layers` state, lines 37–44). -/
structure Layers where
  waypoints : Bool
  obstacles : Bool
  airspace : Bool
  SID : Bool
  STAR : Bool
  APPROACH : Bool
deriving DecidableEq

/-- The filter state consumed by the projection effect: layer toggles,
waypoint-source toggles, obstacle-type toggles, search term.
(The `expandedCategories` state is presentation-only and not read by
the projection.) -/
structure FilterState where
  layers : Layers
  waypointSources : List (String × Bool)
  obstacleTypes : List (String × Bool)
  searchTerm : String
deriving DecidableEq

/-- JS `x.toLowerCase()` (ASCII case folding). -/
def jsLower (s : String) : String :=
  String.mk (s.data.map Char.toLower)

/-- Does the pattern sit at the head of the list? (helper for
`String.includes`). -/
def leadsWith : List Char → List Char → Bool
  | [], _ => true
  | _ :: _, [] => false
  | a :: pa, b :: sb => a == b && leadsWith pa sb

/-- Does the list contain the pattern as a contiguous run? -/
def hasSub (pat : List Char) : List Char → Bool
  | [] => leadsWith pat []
  | b :: rest => leadsWith pat (b :: rest) || hasSub pat rest

/-- JS `s.includes(pat)`. -/
def strIncludes (s pat : String) : Bool :=
  hasSub pat.data s.data

/-- JS truthiness of `m[k]` for a string-keyed map of booleans: a
missing key is `undefined`, hence falsy. -/
def lookupB (m : List (String × Bool)) (k : String) : Bool :=
  (m.lookup k).getD false

/-- JS `x || d` for an optional number: a missing field and the falsy
number `0` both yield the default. -/
def jsOr (x : Option ℚ) (d : ℚ) : ℚ :=
  match x with
  | none => d
  | some v => if v = 0 then d else v

/-- JS `x || 'N/A'` as displayed in a description: `none` stands for
the `'N/A'` text. -/
def jsOrNA (x : Option ℚ) : Option ℚ :=
  match x with
  | none => none
  | some v => if v = 0 then none else some v

/-- JS `x || d` for an optional string (the empty string is falsy). -/
def jsOrStr (x : Option String) (d : String) : String :=
  match x with
  | none => d
  | some s => if s = "" then d else s

/-- A renderable map entity, one constructor per `viewer.entities.add`
call shape of the projection effect.  The `desc…` fields record the
values interpolated into the entity's description markup. -/
inductive Entity where
  | pointEnt (name : String) (position : Pos) (pixelSize : ℚ) (color : Color)
      (labelText : String) (descLat descLon descAlt : ℚ) (descSources : List String)
  | cylinderEnt (name : String) (position : Pos) (length topRadius bottomRadius : ℚ)
      (material outlineColor : Color) (labelText : String)
      (descId descType : String) (descLat descLon descElev : ℚ)
  | polygonEnt (name : String) (positions : List Pos) (material outlineColor : Color)
      (extrudedHeight height : ℚ) (descBase descTop : ℚ)
  | glowPolyline (name : String) (positions : List Pos) (width glowPower : ℚ)
      (color : Color) (descType descTable : String)
  | legPolyline (procName : String) (legNo : ℚ) (positions : List Pos) (width : ℚ)
      (material : Color) (descStartAlt descEndAlt : Option ℚ)
  | runwayEnt (name : String) (positions2d : List (ℚ × ℚ)) (width : ℚ)
      (material : Color) (clampToGround : Bool)
deriving DecidableEq

/-- Constructor discriminator: 0 waypoint point, 1 obstacle cylinder,
2 airspace polygon, 3 procedure route polyline, 4 leg polyline,
5 runway. -/
def entKind : Entity → ℕ
  | .pointEnt .. => 0
  | .cylinderEnt .. => 1
  | .polygonEnt .. => 2
  | .glowPolyline .. => 3
  | .legPolyline .. => 4
  | .runwayEnt .. => 5

/-- The 3D vertex list of a polygon / polyline entity. -/
def entPositions : Entity → List Pos
  | .polygonEnt _ ps _ _ _ _ _ _ => ps
  | .glowPolyline _ ps _ _ _ _ _ => ps
  | .legPolyline _ _ ps _ _ _ _ => ps
  | _ => []

/-- The fill material of an obstacle cylinder entity. -/
def entMaterial : Entity → Option Color
  | .cylinderEnt _ _ _ _ _ m _ _ _ _ _ _ _ => some m
  | _ => none

/-- The point+label entity added for a waypoint (lines 160–186); the
altitude default `wp.altitude || 100` is applied to both the position
and the displayed altitude. -/
def wpEntityData (name : String) (wp : Waypoint) : Entity :=
  let altitude := jsOr wp.altitude 100
  Entity.pointEnt name (Pos.mk wp.lon wp.lat altitude) 8 COLORS.waypoint
    name wp.lat wp.lon altitude wp.sources

/-- Per-waypoint step of the projection (lines 149–188): skip when a
non-empty search term does not occur case-insensitively in the name, or
when no source tag of the waypoint is active. -/
def wpEntity (fs : FilterState) (name : String) (wp : Waypoint) : Option Entity :=
  if (fs.searchTerm != "") && !(strIncludes (jsLower name) (jsLower fs.searchTerm)) then
    none
  else if !(wp.sources.any fun src => lookupB fs.waypointSources src) then
    none
  else
    some (wpEntityData name wp)

/-- The waypoint section of the projection (lines 148–189). -/
def waypointEntities (d : Dataset) (fs : FilterState) : List Entity :=
  if fs.layers.waypoints then
    d.waypoints.filterMap fun p => wpEntity fs p.1 p.2
  else []

/-- The cylinder+label entity added for an obstacle (lines 200–229):
centered at `elevation / 2`, colored by type with the ETC fallback. -/
def obsEntityData (obs : Obstacle) : Entity :=
  let color := (OBSTACLE_COLORS.lookup obs.type).getD COLORS.obstacle_etc
  Entity.cylinderEnt ("장애물 #" ++ obs.id)
    (Pos.mk obs.lon obs.lat (obs.elevation / 2))
    obs.elevation 20 30 (color.withAlpha (4/5)) color ("#" ++ obs.id)
    obs.id obs.type obs.lat obs.lon obs.elevation

/-- Per-obstacle step of the projection (lines 193–230): skip when the
type's toggle is not truthy (a missing entry is `undefined`, hence
falsy), or when a non-empty search term does not occur in the id. -/
def obsEntity (fs : FilterState) (obs : Obstacle) : Option Entity :=
  if !(lookupB fs.obstacleTypes obs.type) then
    none
  else if (fs.searchTerm != "") && !(strIncludes (jsLower obs.id) (jsLower fs.searchTerm)) then
    none
  else
    some (obsEntityData obs)

/-- The obstacle section of the projection (lines 192–232). -/
def obstacleEntities (d : Dataset) (fs : FilterState) : List Entity :=
  if fs.layers.obstacles then
    d.obstacles.filterMap fun obs => obsEntity fs obs
  else []

/-- Per-zone step of the airspace section (lines 236–260): skip unless
the coordinates list has a first ring (`!as.coordinates ||
!as.coordinates[0]`); the first ring, which may itself be empty, is
lifted to the zone's top altitude. -/
def airspaceEntity (zone : AirspaceZone) : Option Entity :=
  match zone.coordinates with
  | [] => none
  | ring0 :: _ =>
    some (Entity.polygonEnt (jsOrStr zone.name "Airspace")
      (ring0.map fun c => Pos.mk c.1 c.2 (jsOr zone.top_alt 3000))
      COLORS.airspace ⟨ "#E91E63", 1⟩
      (jsOr zone.top_alt 3000) (jsOr zone.base_alt 0)
      (jsOr zone.base_alt 0) (jsOr zone.top_alt 0))

/-- The airspace section of the projection (lines 235–261), gated by
`layers.airspace && data.airspace`. -/
def airspaceEntities (d : Dataset) (fs : FilterState) : List Entity :=
  if fs.layers.airspace then
    match d.airspace with
    | none => []
    | some zones => zones.filterMap airspaceEntity
  else []

/-- The 3D vertex list of a procedure route polyline (lines 272–275):
vertex `idx` is lifted to `500 + idx * 50`. -/
def routePositions : ℕ → List (ℚ × ℚ) → List Pos
  | _, [] => []
  | idx, c :: rest => Pos.mk c.1 c.2 (500 + (idx : ℚ) * 50) :: routePositions (idx + 1) rest

/-- The glow polyline for a procedure's simplified route
(lines 270–294), emitted only when there are at least two route
coordinates. -/
def routeEntity (procType : String) (color : Color) (proc : Procedure) : Option Entity :=
  match proc.coordinates with
  | none => none
  | some cs =>
    if 2 ≤ cs.length then
      some (Entity.glowPolyline proc.name (routePositions 0 cs) 4 (3/10) color
        procType proc.table)
    else none

/-- The plain polyline for one leg (lines 298–320): skipped below two
coordinates, otherwise every vertex at the constant altitude
`leg.start_alt || leg.end_alt || 1000`. -/
def legEntity (color : Color) (pname : String) (idx : ℕ) (leg : Leg) : Option Entity :=
  match leg.coordinates with
  | none => none
  | some cs =>
    if cs.length < 2 then none
    else
      let altitude := jsOr leg.start_alt (jsOr leg.end_alt 1000)
      some (Entity.legPolyline pname (jsOr leg.seq ((idx : ℚ) + 1))
        (cs.map fun c => Pos.mk c.1 c.2 altitude) 3 color
        (jsOrNA leg.start_alt) (jsOrNA leg.end_alt))

/-- The leg polylines of a procedure, in `forEach` index order. -/
def legEntitiesFrom (color : Color) (pname : String) : ℕ → List Leg → List Entity
  | _, [] => []
  | idx, leg :: rest =>
    match legEntity color pname idx leg with
    | none => legEntitiesFrom color pname (idx + 1) rest
    | some e => e :: legEntitiesFrom color pname (idx + 1) rest

/-- All entities emitted for one procedure (lines 267–322): the route
polyline when present, then the leg polylines. -/
def procEntities (procType : String) (color : Color) (proc : Procedure) : List Entity :=
  (routeEntity procType color proc).toList ++
    (match proc.legs with
     | none => []
     | some legs => legEntitiesFrom color proc.name 0 legs)

/-- `layers[procType]` for the three procedure category keys. -/
def layerFor (fs : FilterState) (t : String) : Bool :=
  if t = "SID" then fs.layers.SID
  else if t = "STAR" then fs.layers.STAR
  else if t = "APPROACH" then fs.layers.APPROACH
  else false

/-- `data.procedures[procType]` for the three category keys. -/
def procsFor (d : Dataset) (t : String) : List Procedure :=
  if t = "SID" then d.procedures.SID
  else if t = "STAR" then d.procedures.STAR
  else if t = "APPROACH" then d.procedures.APPROACH
  else []

/-- `COLORS[procType]` for the three category keys. -/
def colorFor (t : String) : Color :=
  if t = "SID" then COLORS.SID
  else if t = "STAR" then COLORS.STAR
  else if t = "APPROACH" then COLORS.APPROACH
  else COLORS.runway

/-- One iteration of the `['SID','STAR','APPROACH'].forEach` loop
(lines 264–323). -/
def categoryEntities (d : Dataset) (fs : FilterState) (t : String) : List Entity :=
  if layerFor fs t then
    (procsFor d t).flatMap (procEntities t (colorFor t))
  else []

/-- The procedure section of the projection. -/
def procedureEntities (d : Dataset) (fs : FilterState) : List Entity :=
  categoryEntities d fs "SID" ++ categoryEntities d fs "STAR" ++
    categoryEntities d fs "APPROACH"

/-- The fixed runway polyline prepended unconditionally by `addRunway`
(lines 327–348). -/
def runwayEntity : Entity :=
  Entity.runwayEnt "Runway 18/36"
    [(1293505/10000, 355890/10000), (129353/1000, 355978/10000)]
    15 COLORS.runway true

/-- The full projection: dataset + filter state → ordered entity list,
as produced by one run of the render effect (lines 130–325). -/
def projectAll (d : Dataset) (fs : FilterState) : List Entity :=
  runwayEntity ::
    (waypointEntities d fs ++ obstacleEntities d fs ++
      airspaceEntities d fs ++ procedureEntities d fs)

/-- One render pass over the viewer's entity collection: the effect
first clears every previously materialized entity
(`viewer.entities.removeAll()`, line 136) and then regenerates the full
set, so the previous contents are discarded. -/
def renderPass (d : Dataset) (fs : FilterState) : List Entity → List Entity :=
  fun _prev => projectAll d fs

/-! ### Basic lemmas about the JS helpers -/

theorem hasSub_nil (l : List Char) : hasSub [] l = true := by
  cases l <;> simp [hasSub, leadsWith]

theorem strIncludes_empty (s : String) : strIncludes s "" = true := by
  show hasSub ("" : String).data s.data = true
  exact hasSub_nil s.data

theorem jsLower_empty : jsLower "" = "" := rfl

/-- The search guard `searchTerm && !includes(...)` fails exactly when
the (lower-cased) pattern occurs: an empty search term is falsy, and
`includes` of the empty pattern is always true, so the two agree. -/
theorem searchGuard_false_iff (s t : String) :
    ((t != "") && !(strIncludes s (jsLower t))) = false ↔
      strIncludes s (jsLower t) = true := by
  cases hb : strIncludes s (jsLower t) with
  | true => simp [hb]
  | false =>
    simp [hb]
    intro h
    rw [h, jsLower_empty, strIncludes_empty s] at hb
    exact Bool.true_eq_false.mp hb

/-! ### Characterizing each section's emissions -/

theorem wpEntity_eq_some (fs : FilterState) (name : String) (wp : Waypoint)
    (e : Entity) :
    wpEntity fs name wp = some e ↔
      strIncludes (jsLower name) (jsLower fs.searchTerm) = true ∧
      wp.sources.any (fun src => lookupB fs.waypointSources src) = true ∧
      e = wpEntityData name wp := by
  unfold wpEntity
  cases hg : (fs.searchTerm != "") && !(strIncludes (jsLower name) (jsLower fs.searchTerm)) with
  | true =>
    simp only [hg, if_true]
    constructor
    · intro h; exact absurd h (by simp)
    · rintro ⟨hinc, -, -⟩
      rw [(searchGuard_false_iff (jsLower name) fs.searchTerm).mpr hinc] at hg
      exact absurd hg (by simp)
  | false =>
    have hinc := (searchGuard_false_iff (jsLower name) fs.searchTerm).mp hg
    simp only [hg, if_false, Bool.false_eq_true]
    cases hs : wp.sources.any (fun src => lookupB fs.waypointSources src) with
    | false => simp [hs, hinc]
    | true => simp [hs, hinc, eq_comm]

theorem mem_waypointEntities (d : Dataset) (fs : FilterState) (e : Entity) :
    e ∈ waypointEntities d fs ↔
      fs.layers.waypoints = true ∧
      ∃ p ∈ d.waypoints, wpEntity fs p.1 p.2 = some e := by
  unfold waypointEntities
  cases h : fs.layers.waypoints with
  | false => simp [h]
  | true => simp [h, List.mem_filterMap]

theorem obsEntity_eq_some (fs : FilterState) (obs : Obstacle) (e : Entity) :
    obsEntity fs obs = some e ↔
      lookupB fs.obstacleTypes obs.type = true ∧
      strIncludes (jsLower obs.id) (jsLower fs.searchTerm) = true ∧
      e = obsEntityData obs := by
  unfold obsEntity
  cases ht : lookupB fs.obstacleTypes obs.type with
  | false => simp [ht]
  | true =>
    simp only [ht, Bool.not_true, Bool.false_eq_true, if_false]
    cases hg : (fs.searchTerm != "") && !(strIncludes (jsLower obs.id) (jsLower fs.searchTerm)) with
    | true =>
      simp only [hg, if_true]
      constructor
      · intro h; exact absurd h (by simp)
      · rintro ⟨-, hinc, -⟩
        rw [(searchGuard_false_iff (jsLower obs.id) fs.searchTerm).mpr hinc] at hg
        exact absurd hg (by simp)
    | false =>
      have hinc := (searchGuard_false_iff (jsLower obs.id) fs.searchTerm).mp hg
      simp [hg, hinc, eq_comm]

theorem mem_obstacleEntities (d : Dataset) (fs : FilterState) (e : Entity) :
    e ∈ obstacleEntities d fs ↔
      fs.layers.obstacles = true ∧
      ∃ obs ∈ d.obstacles, obsEntity fs obs = some e := by
  unfold obstacleEntities
  cases h : fs.layers.obstacles with
  | false => simp [h]
  | true => simp [h, List.mem_filterMap]

theorem mem_airspaceEntities (d : Dataset) (fs : FilterState) (e : Entity) :
    e ∈ airspaceEntities d fs ↔
      fs.layers.airspace = true ∧
      ∃ zs, d.airspace = some zs ∧ ∃ z ∈ zs, airspaceEntity z = some e := by
  unfold airspaceEntities
  cases h : fs.layers.airspace with
  | false => simp [h]
  | true =>
    cases ha : d.airspace with
    | none => simp [h, ha]
    | some zs => simp [h, ha, List.mem_filterMap]

/-! ### Constructor kinds of each section's entities -/

theorem kind_of_mem_waypointEntities (d : Dataset) (fs : FilterState) (e : Entity)
    (h : e ∈ waypointEntities d fs) : entKind e = 0 := by
  rw [mem_waypointEntities] at h
  obtain ⟨-, p, -, hp⟩ := h
  obtain ⟨-, -, he⟩ := (wpEntity_eq_some fs p.1 p.2 e).mp hp
  subst he
  rfl

theorem kind_of_mem_obstacleEntities (d : Dataset) (fs : FilterState) (e : Entity)
    (h : e ∈ obstacleEntities d fs) : entKind e = 1 := by
  rw [mem_obstacleEntities] at h
  obtain ⟨-, obs, -, hp⟩ := h
  obtain ⟨-, -, he⟩ := (obsEntity_eq_some fs obs e).mp hp
  subst he
  rfl

theorem kind_of_airspaceEntity (z : AirspaceZone) (e : Entity)
    (h : airspaceEntity z = some e) : entKind e = 2 := by
  unfold airspaceEntity at h
  cases hc : z.coordinates with
  | nil => rw [hc] at h; exact absurd h (by simp)
  | cons r0 rest =>
    rw [hc] at h
    obtain he := Option.some.inj h
    subst he
    rfl

theorem kind_of_mem_airspaceEntities (d : Dataset) (fs : FilterState) (e : Entity)
    (h : e ∈ airspaceEntities d fs) : entKind e = 2 := by
  rw [mem_airspaceEntities] at h
  obtain ⟨-, zs, -, z, -, hz⟩ := h
  exact kind_of_airspaceEntity z e hz

theorem kind_of_routeEntity (t : String) (c : Color) (proc : Procedure) (e : Entity)
    (h : routeEntity t c proc = some e) : entKind e = 3 := by
  unfold routeEntity at h
  split at h
  · exact absurd h (by simp)
  · split at h
    · obtain he := Option.some.inj h
      subst he
      rfl
    · exact absurd h (by simp)

theorem kind_of_legEntity (c : Color) (pname : String) (idx : ℕ) (leg : Leg)
    (e : Entity) (h : legEntity c pname idx leg = some e) : entKind e = 4 := by
  unfold legEntity at h
  split at h
  · exact absurd h (by simp)
  · split at h
    · exact absurd h (by simp)
    · obtain he := Option.some.inj h
      subst he
      rfl

theorem mem_legEntitiesFrom (c : Color) (pname : String) (legs : List Leg)
    (k : ℕ) (e : Entity) (h : e ∈ legEntitiesFrom c pname k legs) :
    ∃ i leg, legs[i]? = some leg ∧ legEntity c pname (k + i) leg = some e := by
  induction legs generalizing k with
  | nil => exact absurd h (by simp [legEntitiesFrom])
  | cons leg rest ih =>
    unfold legEntitiesFrom at h
    cases hl : legEntity c pname k leg with
    | none =>
      rw [hl] at h
      obtain ⟨i, leg2, hi, he⟩ := ih (k + 1) h
      exact ⟨i + 1, leg2, by simpa using hi, by
        have : k + 1 + i = k + (i + 1) := by omega
        rw [this] at he
        exact he⟩
    | some e0 =>
      rw [hl] at h
      rcases List.mem_cons.mp h with he | he
      · subst he
        exact ⟨0, leg, by simp, hl⟩
      · obtain ⟨i, leg2, hi, hee⟩ := ih (k + 1) he
        exact ⟨i + 1, leg2, by simpa using hi, by
          have : k + 1 + i = k + (i + 1) := by omega
          rw [this] at hee
          exact hee⟩

theorem legEntitiesFrom_mem_of (c : Color) (pname : String) (legs : List Leg)
    (k i : ℕ) (leg : Leg) (e : Entity) (hi : legs[i]? = some leg)
    (he : legEntity c pname (k + i) leg = some e) :
    e ∈ legEntitiesFrom c pname k legs := by
  induction legs generalizing k i with
  | nil => exact absurd hi (by simp)
  | cons leg0 rest ih =>
    cases i with
    | zero =>
      have hl : leg0 = leg := by simpa using hi
      subst hl
      unfold legEntitiesFrom
      have he0 : legEntity c pname k leg0 = some e := he
      rw [he0]
      exact List.mem_cons_self e _
    | succ j =>
      have hi2 : rest[j]? = some leg := by simpa using hi
      have he2 : legEntity c pname (k + 1 + j) leg = some e := by
        have : k + 1 + j = k + (j + 1) := by omega
        rw [this]
        exact he
      have hm := ih (k + 1) j hi2 he2
      unfold legEntitiesFrom
      cases hl : legEntity c pname k leg0 with
      | none => exact hm
      | some e0 => exact List.mem_cons_of_mem e0 hm

theorem kind_of_mem_procEntities (t : String) (c : Color) (proc : Procedure)
    (e : Entity) (h : e ∈ procEntities t c proc) :
    entKind e = 3 ∨ entKind e = 4 := by
  unfold procEntities at h
  rcases List.mem_append.mp h with hr | hl
  · left
    cases hro : routeEntity t c proc with
    | none => rw [hro] at hr; exact absurd hr (by simp)
    | some e0 =>
      rw [hro] at hr
      have he : e = e0 := by simpa using hr
      subst he
      exact kind_of_routeEntity t c proc e hro
  · right
    cases hlegs : proc.legs with
    | none => rw [hlegs] at hl; exact absurd hl (by simp)
    | some legs =>
      rw [hlegs] at hl
      obtain ⟨i, leg, -, hle⟩ := mem_legEntitiesFrom c proc.name legs 0 e hl
      exact kind_of_legEntity c proc.name (0 + i) leg e hle

theorem kind_of_mem_procedureEntities (d : Dataset) (fs : FilterState) (e : Entity)
    (h : e ∈ procedureEntities d fs) : entKind e = 3 ∨ entKind e = 4 := by
  unfold procedureEntities categoryEntities at h
  simp only [List.mem_append] at h
  rcases h with (h | h) | h <;>
  · split at h
    · obtain ⟨proc, -, hp⟩ := List.mem_flatMap.mp h
      exact kind_of_mem_procEntities _ _ proc e hp
    · exact absurd h (by simp)

/-! ### Membership in the full projection -/

theorem mem_projectAll_iff (d : Dataset) (fs : FilterState) (e : Entity) :
    e ∈ projectAll d fs ↔
      e = runwayEntity ∨ e ∈ waypointEntities d fs ∨ e ∈ obstacleEntities d fs ∨
      e ∈ airspaceEntities d fs ∨ e ∈ procedureEntities d fs := by
  unfold projectAll
  simp [List.mem_cons, List.mem_append, or_assoc]

theorem mem_projectAll_of_wp (d : Dataset) (fs : FilterState) (e : Entity)
    (h : e ∈ waypointEntities d fs) : e ∈ projectAll d fs :=
  (mem_projectAll_iff d fs e).mpr (Or.inr (Or.inl h))

theorem mem_projectAll_of_obs (d : Dataset) (fs : FilterState) (e : Entity)
    (h : e ∈ obstacleEntities d fs) : e ∈ projectAll d fs :=
  (mem_projectAll_iff d fs e).mpr (Or.inr (Or.inr (Or.inl h)))

theorem mem_projectAll_of_airspace (d : Dataset) (fs : FilterState) (e : Entity)
    (h : e ∈ airspaceEntities d fs) : e ∈ projectAll d fs :=
  (mem_projectAll_iff d fs e).mpr (Or.inr (Or.inr (Or.inr (Or.inl h))))

theorem mem_projectAll_of_procs (d : Dataset) (fs : FilterState) (e : Entity)
    (h : e ∈ procedureEntities d fs) : e ∈ projectAll d fs :=
  (mem_projectAll_iff d fs e).mpr (Or.inr (Or.inr (Or.inr (Or.inr h))))

/-- An entity of one procedure reaches the output when that procedure
sits in a category whose toggle is on. -/
theorem mem_projectAll_of_procEntities (d : Dataset) (fs : FilterState)
    (t : String) (proc : Procedure) (e : Entity)
    (ht : t = "SID" ∨ t = "STAR" ∨ t = "APPROACH")
    (htog : layerFor fs t = true)
    (hp : proc ∈ procsFor d t)
    (he : e ∈ procEntities t (colorFor t) proc) : e ∈ projectAll d fs := by
  apply mem_projectAll_of_procs
  have hcat : e ∈ categoryEntities d fs t := by
    unfold categoryEntities
    rw [htog, if_pos rfl]
    exact List.mem_flatMap.mpr ⟨proc, hp, he⟩
  unfold procedureEntities
  rcases ht with h | h | h <;> subst h <;>
    simp only [List.mem_append] <;> tauto

/-- The runway is never a waypoint, obstacle, airspace or procedure
entity: used to locate an output entity's section by its kind. -/
theorem runwayEntity_kind : entKind runwayEntity = 5 := rfl

/-! ### Indexing lemma for route polyline altitudes -/

theorem routePositions_getElem (l : List (ℚ × ℚ)) (k i : ℕ) :
    (routePositions k l)[i]? =
      l[i]?.map (fun c => Pos.mk c.1 c.2 (500 + ((k + i : ℕ) : ℚ) * 50)) := by
  induction l generalizing k i with
  | nil => simp [routePositions]
  | cons c rest ih =>
    cases i with
    | zero => simp [routePositions]
    | succ j =>
      have := ih (k + 1) j
      simp only [routePositions, List.getElem?_cons_succ]
      rw [this]
      have harith : k + 1 + j = k + (j + 1) := by omega
      rw [harith]

/-- The `name` attribute of an entity. -/
def entName : Entity → String
  | .pointEnt n _ _ _ _ _ _ _ _ => n
  | .cylinderEnt n _ _ _ _ _ _ _ _ _ _ _ _ => n
  | .polygonEnt n _ _ _ _ _ _ _ => n
  | .glowPolyline n _ _ _ _ _ _ => n
  | .legPolyline n _ _ _ _ _ _ => n
  | .runwayEnt n _ _ _ _ => n

/-- The source tags shown in a waypoint entity's description. -/
def entWpSources : Entity → List String
  | .pointEnt _ _ _ _ _ _ _ _ srcs => srcs
  | _ => []

/-- The obstacle id shown in an obstacle entity's description. -/
def entObsId : Entity → String
  | .cylinderEnt _ _ _ _ _ _ _ _ i _ _ _ _ => i
  | _ => ""

/-- The obstacle type shown in an obstacle entity's description. -/
def entObsType : Entity → String
  | .cylinderEnt _ _ _ _ _ _ _ _ _ t _ _ _ => t
  | _ => ""

/-! ### The claims -/

/-- C1: for every waypoint in the dataset, the waypoint appears in the
projection output — as its point-marker-plus-label entity — if and only
if the waypoints layer toggle is true, the waypoint's name
case-insensitively contains the search term (the empty search term
matching every name), and at least one of the waypoint's source tags is
active in the filter state. -/
theorem waypoint_appears_iff (d : Dataset) (fs : FilterState) (name : String)
    (wp : Waypoint) (hmem : (name, wp) ∈ d.waypoints) :
    wpEntityData name wp ∈ projectAll d fs ↔
      (fs.layers.waypoints = true ∧
       strIncludes (jsLower name) (jsLower fs.searchTerm) = true ∧
       wp.sources.any (fun src => lookupB fs.waypointSources src) = true) := by
  constructor
  · intro h
    have h0 : entKind (wpEntityData name wp) = 0 := rfl
    rcases (mem_projectAll_iff d fs _).mp h with h | h | h | h | h
    · rw [h, runwayEntity_kind] at h0
      exact absurd h0 (by decide)
    · obtain ⟨htog, p, hpmem, hsome⟩ := (mem_waypointEntities d fs _).mp h
      obtain ⟨hinc, hsrc, heq⟩ := (wpEntity_eq_some fs p.1 p.2 _).mp hsome
      have hn : name = p.1 := congrArg entName heq
      have hs : wp.sources = p.2.sources := congrArg entWpSources heq
      refine ⟨htog, ?_, ?_⟩
      · rw [hn]; exact hinc
      · rw [hs]; exact hsrc
    · have h1 := kind_of_mem_obstacleEntities d fs _ h
      omega
    · have h2 := kind_of_mem_airspaceEntities d fs _ h
      omega
    · have h34 := kind_of_mem_procedureEntities d fs _ h
      rcases h34 with h3 | h4 <;> omega
  · rintro ⟨htog, hinc, hsrc⟩
    apply mem_projectAll_of_wp
    rw [mem_waypointEntities]
    exact ⟨htog, ⟨(name, wp), hmem, (wpEntity_eq_some fs name wp _).mpr ⟨hinc, hsrc, rfl⟩⟩⟩

/-- The single-waypoint example of the spec: `ALPHA` at (35.0, 129.0)
with source `NAV1`, all layers on, `NAV1` active, empty search. -/
def wpAlpha : Waypoint :=
  { lat := 35, lon := 129, altitude := none, sources := ["NAV1"] }

/-- A dataset holding only the `ALPHA` waypoint. -/
def dAlpha : Dataset :=
  { waypoints := [("ALPHA", wpAlpha)], obstacles := [], airspace := none,
    procedures := { SID := [], STAR := [], APPROACH := [] } }

/-- The initial UI filter state (lines 37–54) with `NAV1` active. -/
def fsAlpha : FilterState :=
  { layers := { waypoints := true, obstacles := true, airspace := true,
                SID := false, STAR := false, APPROACH := true },
    waypointSources := [("NAV1", true)],
    obstacleTypes := [("Building", true), ("Tower", true), ("Natural", true),
                      ("Tree", true), ("Navaid", true), ("ETC", true)],
    searchTerm := "" }

theorem waypoint_appears_iff_witness :
    ("ALPHA", wpAlpha) ∈ dAlpha.waypoints ∧
    wpEntityData "ALPHA" wpAlpha ∈ projectAll dAlpha fsAlpha :=
  ⟨by decide,
   (waypoint_appears_iff dAlpha fsAlpha "ALPHA" wpAlpha (by decide)).mpr (by decide)⟩

/-- C7: for any dataset and any two filter states that differ only in
the search term (layers, waypoint sources and obstacle types agree),
the projection produces exactly the same airspace entities and the
same procedure (route and leg) entities: the search term gates only
waypoints and obstacles. -/
theorem search_gates_only_waypoints_obstacles (d : Dataset)
    (fs1 fs2 : FilterState)
    (hl : fs1.layers = fs2.layers)
    (_hws : fs1.waypointSources = fs2.waypointSources)
    (_hot : fs1.obstacleTypes = fs2.obstacleTypes) :
    airspaceEntities d fs1 = airspaceEntities d fs2 ∧
    procedureEntities d fs1 = procedureEntities d fs2 := by
  constructor
  · unfold airspaceEntities
    rw [hl]
  · unfold procedureEntities categoryEntities layerFor
    rw [hl]

/-- A filter state identical to `fsAlpha` except for the search term. -/
def fsAlphaSearch : FilterState :=
  { fsAlpha with searchTerm := "beta" }

theorem search_gates_only_waypoints_obstacles_witness :
    airspaceEntities dAlpha fsAlpha = airspaceEntities dAlpha fsAlphaSearch ∧
    procedureEntities dAlpha fsAlpha = procedureEntities dAlpha fsAlphaSearch :=
  search_gates_only_waypoints_obstacles dAlpha fsAlpha fsAlphaSearch rfl rfl rfl

/-- C8: the projection is deterministic — for a fixed dataset and
filter state, two render passes yield identical entity lists (same
count, same order, same per-entity attributes), whatever entities were
previously materialized. -/
theorem projection_deterministic (d : Dataset) (fs : FilterState)
    (prev1 prev2 : List Entity) :
    renderPass d fs prev1 = renderPass d fs prev2 ∧
    renderPass d fs prev1 = projectAll d fs ∧
    (renderPass d fs prev1).length = (renderPass d fs prev2).length :=
  ⟨rfl, rfl, rfl⟩

/-- C9: re-projection fully replaces the previously materialized
entity set rather than appending: any number of repeated passes with
unchanged inputs leaves exactly the single-pass entity list, so the
total entity count does not grow. -/
theorem reprojection_replaces (d : Dataset) (fs : FilterState)
    (init : List Entity) (n : ℕ) :
    (renderPass d fs)^[n + 1] init = projectAll d fs ∧
    ((renderPass d fs)^[n + 1] init).length = (projectAll d fs).length := by
  have h : (renderPass d fs)^[n + 1] init = projectAll d fs := by
    rw [Function.iterate_succ_apply']
    rfl
  exact ⟨h, by rw [h]⟩

/-- C10: the waypoint default-altitude substitution triggers on any
falsy altitude, not only a missing field: for a waypoint whose altitude
is `0` — just as for one whose altitude is absent — the projected
position and the displayed altitude use `100`, and the whole emission
(filtering included) equals that of the same waypoint with altitude
`100`. -/
theorem waypoint_zero_altitude_defaults (fs : FilterState) (name : String)
    (wp : Waypoint) (h : wp.altitude = some 0 ∨ wp.altitude = none) :
    wpEntityData name wp =
      Entity.pointEnt name (Pos.mk wp.lon wp.lat 100) 8 COLORS.waypoint
        name wp.lat wp.lon 100 wp.sources ∧
    wpEntityData name wp = wpEntityData name { wp with altitude := some 100 } ∧
    wpEntity fs name wp = wpEntity fs name { wp with altitude := some 100 } := by
  have halt : jsOr wp.altitude 100 = 100 := by
    rcases h with h | h <;> rw [h] <;> simp [jsOr]
  have hdata : wpEntityData name wp =
      Entity.pointEnt name (Pos.mk wp.lon wp.lat 100) 8 COLORS.waypoint
        name wp.lat wp.lon 100 wp.sources := by
    unfold wpEntityData
    rw [halt]
  have hdata100 : wpEntityData name { wp with altitude := some 100 } =
      Entity.pointEnt name (Pos.mk wp.lon wp.lat 100) 8 COLORS.waypoint
        name wp.lat wp.lon 100 wp.sources := by
    unfold wpEntityData
    norm_num [jsOr]
  refine ⟨hdata, by rw [hdata, hdata100], ?_⟩
  unfold wpEntity
  rw [hdata, hdata100]

/-- A waypoint record whose altitude field is the falsy number `0`. -/
def wpZeroAlt : Waypoint :=
  { lat := 35, lon := 129, altitude := some 0, sources := ["NAV1"] }

theorem waypoint_zero_altitude_defaults_witness :
    wpZeroAlt.altitude = some 0 ∧
    wpEntityData "ZERO" wpZeroAlt =
      Entity.pointEnt "ZERO" (Pos.mk wpZeroAlt.lon wpZeroAlt.lat 100) 8
        COLORS.waypoint "ZERO" wpZeroAlt.lat wpZeroAlt.lon 100 wpZeroAlt.sources :=
  ⟨rfl, (waypoint_zero_altitude_defaults fsAlpha "ZERO" wpZeroAlt (Or.inl rfl)).1⟩

/-- C2 (amended): for every obstacle in the dataset, the obstacle
appears in the projection output if and only if the obstacles layer
toggle is true, the per-type toggle lookup for the obstacle's type is
true — a type with no entry in the toggle map, in particular any
unrecognized type under the default toggle state, is `undefined`,
hence falsy, hence excluded — and the obstacle's identifier
case-insensitively contains the search term. -/
theorem obstacle_appears_iff (d : Dataset) (fs : FilterState) (obs : Obstacle)
    (hmem : obs ∈ d.obstacles) :
    obsEntityData obs ∈ projectAll d fs ↔
      (fs.layers.obstacles = true ∧
       lookupB fs.obstacleTypes obs.type = true ∧
       strIncludes (jsLower obs.id) (jsLower fs.searchTerm) = true) := by
  constructor
  · intro h
    have h1 : entKind (obsEntityData obs) = 1 := rfl
    rcases (mem_projectAll_iff d fs _).mp h with h | h | h | h | h
    · rw [h, runwayEntity_kind] at h1
      exact absurd h1 (by decide)
    · have h0 := kind_of_mem_waypointEntities d fs _ h
      omega
    · obtain ⟨htog, obs2, hpmem, hsome⟩ := (mem_obstacleEntities d fs _).mp h
      obtain ⟨htype, hinc, heq⟩ := (obsEntity_eq_some fs obs2 _).mp hsome
      have hid : obs.id = obs2.id := congrArg entObsId heq
      have hty : obs.type = obs2.type := congrArg entObsType heq
      refine ⟨htog, ?_, ?_⟩
      · rw [hty]; exact htype
      · rw [hid]; exact hinc
    · have h2 := kind_of_mem_airspaceEntities d fs _ h
      omega
    · rcases kind_of_mem_procedureEntities d fs _ h with h3 | h4 <;> omega
  · rintro ⟨htog, htype, hinc⟩
    apply mem_projectAll_of_obs
    rw [mem_obstacleEntities]
    exact ⟨htog, obs, hmem, (obsEntity_eq_some fs obs _).mpr ⟨htype, hinc, rfl⟩⟩

/-- The obstacle example of the spec: id 42, recognized type Tower. -/
def obsTower : Obstacle :=
  { id := "42", type := "Tower", lat := 1, lon := 1, elevation := 80 }

/-- A dataset holding only the Tower obstacle. -/
def dTower : Dataset :=
  { waypoints := [], obstacles := [obsTower], airspace := none,
    procedures := { SID := [], STAR := [], APPROACH := [] } }

theorem obstacle_appears_iff_witness :
    obsTower ∈ dTower.obstacles ∧
    obsEntityData obsTower ∈ projectAll dTower fsAlpha :=
  ⟨by decide,
   (obstacle_appears_iff dTower fsAlpha obsTower (by decide)).mpr (by decide)⟩

/-- An obstacle whose type string is not one of the six recognized
values. -/
def obsWindmill : Obstacle :=
  { id := "W1", type := "Windmill", lat := 1, lon := 1, elevation := 50 }

/-- A dataset holding only the unrecognized-type obstacle. -/
def dWindmill : Dataset :=
  { waypoints := [], obstacles := [obsWindmill], airspace := none,
    procedures := { SID := [], STAR := [], APPROACH := [] } }

/-- C2 counterexample to the claim as stated: under the default toggle
state the obstacles layer is on, the search term is empty (so the id
matches) and the type `Windmill` is unrecognized, which the claim says
defaults to included — yet the projection output holds no obstacle
entity at all, only the unconditional runway. -/
theorem obstacle_unknown_type_default_cex :
    obsWindmill ∈ dWindmill.obstacles ∧
    fsAlpha.layers.obstacles = true ∧
    OBSTACLE_COLORS.lookup obsWindmill.type = none ∧
    List.lookup obsWindmill.type fsAlpha.obstacleTypes = none ∧
    strIncludes (jsLower obsWindmill.id) (jsLower fsAlpha.searchTerm) = true ∧
    projectAll dWindmill fsAlpha = [runwayEntity] :=
  ⟨by decide, by decide, by decide, by decide, by decide, rfl⟩

/-- C3 (amended): an obstacle with an unrecognized type is emitted —
styled with the ETC fallback color, never an error — only when the
per-type toggle map holds a true entry for that type (besides the
obstacles layer being on and the identifier matching the search term);
under the default toggle map, which has entries for the six recognized
types only, such an obstacle is silently omitted. -/
theorem unknown_type_renders_only_when_toggled (d : Dataset) (fs : FilterState)
    (obs : Obstacle) (hmem : obs ∈ d.obstacles)
    (hunk : OBSTACLE_COLORS.lookup obs.type = none)
    (htype : lookupB fs.obstacleTypes obs.type = true)
    (htog : fs.layers.obstacles = true)
    (hinc : strIncludes (jsLower obs.id) (jsLower fs.searchTerm) = true) :
    obsEntityData obs ∈ projectAll d fs ∧
    entMaterial (obsEntityData obs) =
      some (Color.withAlpha COLORS.obstacle_etc (4/5)) := by
  constructor
  · apply mem_projectAll_of_obs
    rw [mem_obstacleEntities]
    exact ⟨htog, obs, hmem, (obsEntity_eq_some fs obs _).mpr ⟨htype, hinc, rfl⟩⟩
  · unfold obsEntityData
    rw [hunk]
    rfl

/-- The default toggle map extended with a true entry for the
unrecognized type `Windmill`. -/
def fsWindmillOn : FilterState :=
  { fsAlpha with obstacleTypes := fsAlpha.obstacleTypes ++ [("Windmill", true)] }

theorem unknown_type_renders_only_when_toggled_witness :
    obsEntityData obsWindmill ∈ projectAll dWindmill fsWindmillOn ∧
    entMaterial (obsEntityData obsWindmill) =
      some (Color.withAlpha COLORS.obstacle_etc (4/5)) :=
  unknown_type_renders_only_when_toggled dWindmill fsWindmillOn obsWindmill
    (by decide) (by decide) (by decide) (by decide) (by decide)

/-- Another obstacle with an unrecognized type, for the C3
counterexample input. -/
def obsCrane : Obstacle :=
  { id := "K9", type := "Crane", lat := 2, lon := 2, elevation := 30 }

/-- A dataset holding only the Crane obstacle. -/
def dCrane : Dataset :=
  { waypoints := [], obstacles := [obsCrane], airspace := none,
    procedures := { SID := [], STAR := [], APPROACH := [] } }

/-- C3 counterexample to the claim as stated: obstacles layer on,
identifier matches the empty search term, type `Crane` unrecognized —
the claim says an entity with the ETC fallback color is still emitted,
yet the projection output holds no obstacle entity: the unknown type
does cause the obstacle's omission under the default toggle state. -/
theorem unknown_type_omitted_by_default_cex :
    OBSTACLE_COLORS.lookup obsCrane.type = none ∧
    fsAlpha.layers.obstacles = true ∧
    strIncludes (jsLower obsCrane.id) (jsLower fsAlpha.searchTerm) = true ∧
    obsCrane ∈ dCrane.obstacles ∧
    projectAll dCrane fsAlpha = [runwayEntity] :=
  ⟨by decide, by decide, by decide, by decide, rfl⟩

/-- C4 (amended): for every airspace zone, the projection emits an
extruded polygon entity for it if and only if the airspace layer
toggle is true and the zone's coordinates array has at least one ring
— the guard tests only for the presence of a first ring, which may
itself be empty, in which case a polygon with an empty position list
is emitted; a zone whose coordinates array is empty is silently
skipped, producing no entity and raising no error. -/
theorem airspace_zone_appears_iff (d : Dataset) (fs : FilterState)
    (zs : List AirspaceZone) (zone : AirspaceZone)
    (hd : d.airspace = some zs) (hmem : zone ∈ zs) :
    (∃ e, airspaceEntity zone = some e ∧ e ∈ projectAll d fs) ↔
      (fs.layers.airspace = true ∧ zone.coordinates ≠ []) := by
  constructor
  · rintro ⟨e, hz, hall⟩
    constructor
    · have hk := kind_of_airspaceEntity zone e hz
      rcases (mem_projectAll_iff d fs e).mp hall with h | h | h | h | h
      · rw [h, runwayEntity_kind] at hk
        exact absurd hk (by decide)
      · have := kind_of_mem_waypointEntities d fs e h
        omega
      · have := kind_of_mem_obstacleEntities d fs e h
        omega
      · exact ((mem_airspaceEntities d fs e).mp h).1
      · rcases kind_of_mem_procedureEntities d fs e h with h3 | h4 <;> omega
    · intro hc
      unfold airspaceEntity at hz
      rw [hc] at hz
      exact absurd hz (by simp)
  · rintro ⟨htog, hne⟩
    cases hc : zone.coordinates with
    | nil => exact absurd hc hne
    | cons r0 rest =>
      have hz : airspaceEntity zone =
          some (Entity.polygonEnt (jsOrStr zone.name "Airspace")
            (r0.map fun c => Pos.mk c.1 c.2 (jsOr zone.top_alt 3000))
            COLORS.airspace ⟨ "#E91E63", 1⟩
            (jsOr zone.top_alt 3000) (jsOr zone.base_alt 0)
            (jsOr zone.base_alt 0) (jsOr zone.top_alt 0)) := by
        unfold airspaceEntity
        rw [hc]
      exact ⟨_, hz, mem_projectAll_of_airspace d fs _
        ((mem_airspaceEntities d fs _).mpr ⟨htog, zs, hd, zone, hmem, hz⟩)⟩

/-- An airspace zone with one proper boundary ring. -/
def zoneRing : AirspaceZone :=
  { name := some "CTR", base_alt := some 0, top_alt := some 3000,
    coordinates := [[(129, 35), (130, 35), (130, 36)]] }

/-- A dataset holding only the one-ring zone. -/
def dZone : Dataset :=
  { waypoints := [], obstacles := [], airspace := some [zoneRing],
    procedures := { SID := [], STAR := [], APPROACH := [] } }

theorem airspace_zone_appears_iff_witness :
    zoneRing ∈ [zoneRing] ∧
    ∃ e, airspaceEntity zoneRing = some e ∧ e ∈ projectAll dZone fsAlpha :=
  ⟨by decide,
   (airspace_zone_appears_iff dZone fsAlpha [zoneRing] zoneRing rfl
      (by decide)).mpr (by decide)⟩

/-- An airspace zone whose only ring is empty: it has a first ring, so
the guard passes, but no non-empty ring. -/
def zoneEmptyRing : AirspaceZone :=
  { name := some "Z", base_alt := none, top_alt := none,
    coordinates := [[]] }

/-- A dataset holding only the empty-first-ring zone. -/
def dZoneEmpty : Dataset :=
  { waypoints := [], obstacles := [], airspace := some [zoneEmptyRing],
    procedures := { SID := [], STAR := [], APPROACH := [] } }

/-- C4 counterexample to the claim as stated: with the airspace layer
on, a zone whose coordinates array is `[[]]` has no non-empty ring, so
the claim says no entity is emitted — yet the projection emits a
polygon entity for it (with an empty position list). -/
theorem airspace_empty_first_ring_cex :
    (∀ r ∈ zoneEmptyRing.coordinates, r = ([] : List (ℚ × ℚ))) ∧
    fsAlpha.layers.airspace = true ∧
    projectAll dZoneEmpty fsAlpha =
      [runwayEntity,
       Entity.polygonEnt "Z" [] COLORS.airspace ⟨ "#E91E63", 1⟩ 3000 0 0 0] :=
  ⟨by decide, by decide, rfl⟩

/-- Leg polylines never count as route (glow) polylines. -/
theorem countP3_legEntitiesFrom (c : Color) (pname : String) (legs : List Leg)
    (k : ℕ) :
    (legEntitiesFrom c pname k legs).countP (fun x => entKind x == 3) = 0 := by
  rw [List.countP_eq_zero]
  intro a ha
  obtain ⟨i, leg, -, hle⟩ := mem_legEntitiesFrom c pname legs k a ha
  have h4 := kind_of_legEntity c pname (k + i) leg a hle
  simp [h4]

/-- C6: for every procedure in a category whose toggle is on, if the
procedure has at least two route coordinates then the projection emits
exactly one route polyline across all route points, whose vertex at
index `i` sits at altitude `500 + i * 50`; with fewer than two route
coordinates no route polyline is emitted for the procedure. -/
theorem route_polyline_spec (d : Dataset) (fs : FilterState) (t : String)
    (proc : Procedure)
    (ht : t = "SID" ∨ t = "STAR" ∨ t = "APPROACH")
    (htog : layerFor fs t = true)
    (hp : proc ∈ procsFor d t) :
    (∀ cs, proc.coordinates = some cs → 2 ≤ cs.length →
      ∃ e, routeEntity t (colorFor t) proc = some e ∧ e ∈ projectAll d fs ∧
        (∀ i : ℕ, (entPositions e)[i]? =
          cs[i]?.map (fun c => Pos.mk c.1 c.2 (500 + (i : ℚ) * 50))) ∧
        (procEntities t (colorFor t) proc).countP (fun x => entKind x == 3) = 1) ∧
    ((∀ cs, proc.coordinates = some cs → cs.length < 2) →
      (procEntities t (colorFor t) proc).countP (fun x => entKind x == 3) = 0) := by
  constructor
  · intro cs hcs h2
    have hroute : routeEntity t (colorFor t) proc =
        some (Entity.glowPolyline proc.name (routePositions 0 cs) 4 (3/10)
          (colorFor t) t proc.table) := by
      unfold routeEntity
      rw [hcs]
      dsimp only
      rw [if_pos h2]
    refine ⟨_, hroute, ?_, ?_, ?_⟩
    · apply mem_projectAll_of_procEntities d fs t proc _ ht htog hp
      unfold procEntities
      rw [hroute]
      exact List.mem_append.mpr (Or.inl (by simp))
    · intro i
      show (routePositions 0 cs)[i]? = _
      rw [routePositions_getElem cs 0 i]
      simp [Nat.zero_add]
    · unfold procEntities
      rw [hroute, List.countP_append]
      have hone : (Option.toList (some (Entity.glowPolyline proc.name
          (routePositions 0 cs) 4 (3/10) (colorFor t) t proc.table))).countP
          (fun x => entKind x == 3) = 1 := by
        simp [List.countP, List.countP.go, entKind]
      rw [hone]
      cases hlegs : proc.legs with
      | none => simp
      | some legs => simp [countP3_legEntitiesFrom]
  · intro hshort
    have hroute : routeEntity t (colorFor t) proc = none := by
      unfold routeEntity
      cases hcs : proc.coordinates with
      | none => rfl
      | some cs =>
        dsimp only
        have hlen := hshort cs hcs
        rw [if_neg (by omega)]
    unfold procEntities
    rw [hroute]
    cases hlegs : proc.legs with
    | none => simp
    | some legs => simp [countP3_legEntitiesFrom]

/-- C5 (amended): for every leg of a procedure in a category whose
toggle is on, if the leg has at least two coordinates then the
projection emits exactly one polyline for it whose every vertex sits at
the single constant altitude `leg.start_alt || leg.end_alt || 1000` —
the start altitude when it is present and nonzero, else the end
altitude when present and nonzero, else the fixed default 1000 (the JS
falsy chain treats an altitude of 0 like an absent one); a leg with
fewer than two coordinates emits nothing. -/
theorem leg_polyline_spec (d : Dataset) (fs : FilterState) (t : String)
    (proc : Procedure) (legs : List Leg) (i : ℕ) (leg : Leg)
    (ht : t = "SID" ∨ t = "STAR" ∨ t = "APPROACH")
    (htog : layerFor fs t = true)
    (hp : proc ∈ procsFor d t)
    (hlegs : proc.legs = some legs)
    (hleg : legs[i]? = some leg) :
    (∀ cs, leg.coordinates = some cs → 2 ≤ cs.length →
      ∃ e, legEntity (colorFor t) proc.name i leg = some e ∧
        e ∈ projectAll d fs ∧
        entPositions e = cs.map (fun c =>
          Pos.mk c.1 c.2 (jsOr leg.start_alt (jsOr leg.end_alt 1000)))) ∧
    ((∀ cs, leg.coordinates = some cs → cs.length < 2) →
      legEntity (colorFor t) proc.name i leg = none) ∧
    (leg.coordinates = none →
      legEntity (colorFor t) proc.name i leg = none) := by
  refine ⟨?_, ?_, ?_⟩
  · intro cs hcs h2
    have hle : legEntity (colorFor t) proc.name i leg =
        some (Entity.legPolyline proc.name (jsOr leg.seq ((i : ℚ) + 1))
          (cs.map fun c =>
            Pos.mk c.1 c.2 (jsOr leg.start_alt (jsOr leg.end_alt 1000)))
          3 (colorFor t) (jsOrNA leg.start_alt) (jsOrNA leg.end_alt)) := by
      unfold legEntity
      rw [hcs]
      dsimp only
      rw [if_neg (by omega)]
    refine ⟨_, hle, ?_, rfl⟩
    apply mem_projectAll_of_procEntities d fs t proc _ ht htog hp
    unfold procEntities
    rw [hlegs]
    apply List.mem_append.mpr
    right
    apply legEntitiesFrom_mem_of (colorFor t) proc.name legs 0 i leg _ hleg
    rw [Nat.zero_add]
    exact hle
  · intro hshort
    unfold legEntity
    cases hcs : leg.coordinates with
    | none => rfl
    | some cs =>
      dsimp only
      have := hshort cs hcs
      rw [if_pos (by omega)]
  · intro hnone
    unfold legEntity
    rw [hnone]

/-- A leg with two coordinates and a nonzero start altitude. -/
def legW : Leg :=
  { seq := some 1, start_alt := some 1500, end_alt := none,
    coordinates := some [(129, 35), (130, 36)] }

/-- An approach procedure holding only `legW`. -/
def procLegs : Procedure :=
  { name := "APP 18", table := "app_1", coordinates := none,
    legs := some [legW] }

/-- A dataset holding only `procLegs` under APPROACH. -/
def dLegs : Dataset :=
  { waypoints := [], obstacles := [], airspace := none,
    procedures := { SID := [], STAR := [], APPROACH := [procLegs] } }

theorem leg_polyline_spec_witness :
    (∀ cs, legW.coordinates = some cs → 2 ≤ cs.length →
      ∃ e, legEntity (colorFor "APPROACH") procLegs.name 0 legW = some e ∧
        e ∈ projectAll dLegs fsAlpha ∧
        entPositions e = cs.map (fun c =>
          Pos.mk c.1 c.2 (jsOr legW.start_alt (jsOr legW.end_alt 1000)))) ∧
    ((∀ cs, legW.coordinates = some cs → cs.length < 2) →
      legEntity (colorFor "APPROACH") procLegs.name 0 legW = none) ∧
    (legW.coordinates = none →
      legEntity (colorFor "APPROACH") procLegs.name 0 legW = none) :=
  leg_polyline_spec dLegs fsAlpha "APPROACH" procLegs [legW] 0 legW
    (Or.inr (Or.inr rfl)) (by decide) (by decide) rfl (by decide)

/-- A leg whose start altitude is the falsy number 0 and whose end
altitude is 2000. -/
def legZeroStart : Leg :=
  { seq := none, start_alt := some 0, end_alt := some 2000,
    coordinates := some [(0, 0), (1, 1)] }

/-- C5 counterexample to the claim as stated: the start altitude is
present (0), so the claim says every vertex sits at altitude 0 — yet
the emitted polyline's vertices all sit at the end altitude 2000,
because the JS falsy chain skips a start altitude of 0. -/
theorem leg_zero_start_alt_cex :
    legZeroStart.start_alt = some 0 ∧
    legEntity COLORS.APPROACH "P1" 0 legZeroStart =
      some (Entity.legPolyline "P1" (((0 : ℕ) : ℚ) + 1)
        [Pos.mk 0 0 2000, Pos.mk 1 1 2000] 3 COLORS.APPROACH
        none (some 2000)) ∧
    (2000 : ℚ) ≠ 0 :=
  ⟨rfl, rfl, by norm_num⟩

/-- A SID procedure with a three-point simplified route. -/
def procRoute : Procedure :=
  { name := "GUKDO 1A", table := "sid_1",
    coordinates := some [(129, 35), (130, 36), (131, 37)], legs := none }

/-- A dataset holding only `procRoute` under SID. -/
def dRoute : Dataset :=
  { waypoints := [], obstacles := [], airspace := none,
    procedures := { SID := [procRoute], STAR := [], APPROACH := [] } }

/-- `fsAlpha` with the SID layer switched on. -/
def fsSidOn : FilterState :=
  { fsAlpha with layers := { fsAlpha.layers with SID := true } }

theorem route_polyline_spec_witness :
    (∀ cs, procRoute.coordinates = some cs → 2 ≤ cs.length →
      ∃ e, routeEntity "SID" (colorFor "SID") procRoute = some e ∧
        e ∈ projectAll dRoute fsSidOn ∧
        (∀ i : ℕ, (entPositions e)[i]? =
          cs[i]?.map (fun c => Pos.mk c.1 c.2 (500 + (i : ℚ) * 50))) ∧
        (procEntities "SID" (colorFor "SID") procRoute).countP
          (fun x => entKind x == 3) = 1) ∧
    ((∀ cs, procRoute.coordinates = some cs → cs.length < 2) →
      (procEntities "SID" (colorFor "SID") procRoute).countP
        (fun x => entKind x == 3) = 0) :=
  route_polyline_spec dRoute fsSidOn "SID" procRoute (Or.inl rfl)
    (by decide) (by decide)
